import Mathlib

/-!
Shallow embedding of the Pomodoro session state machine and the user-profile
cache of the fresh-task-manager repository.

The Pomodoro state and actions are embedded from the zustand store in
`src/screens/HomeScreen.tsx` (the `currentPomodoro` / `pomodoroSettings`
slices and the actions `startPomodoro`, `pausePomodoro`, `resumePomodoro`,
`stopPomodoro`, `completePomodoro`, `skipBreak`, `updatePomodoroSettings`).
The per-second tick and the completion handlers are embedded from the
interval effect in `src/components/PomodoroTimer.tsx`.  The settings dialog
clamping is embedded from `handleSave` in `src/components/TemplateList.tsx`.
The profile cache is embedded from `getUserProfile` in
`src/services/userService.ts`.
-/

namespace TaskManager

/-- `PomodoroSettings` from `src/screens/HomeScreen.tsx` (type at lines
591-598). Durations are in minutes. -/
structure PomodoroSettings where
  workDuration : Nat
  shortBreakDuration : Nat
  longBreakDuration : Nat
  sessionsUntilLongBreak : Nat
  autoStartNextSession : Bool
  autoStartBreaks : Bool
deriving Repr, DecidableEq

/-- The `currentPomodoro` slice of the store state.  `timeRemaining` is an
`Int` so that the question whether the countdown can go negative is a real
one, as it is for a JavaScript number. -/
structure CurrentPomodoro where
  active : Bool
  isBreak : Bool
  timeRemaining : Int
  sessionId : Option String
  currentSessionCount : Nat
deriving Repr, DecidableEq

/-- The part of the zustand store state the Pomodoro actions read and
write. -/
structure TaskStoreState where
  currentPomodoro : CurrentPomodoro
  pomodoroSettings : PomodoroSettings
deriving Repr, DecidableEq

/-- Initial store state (`HomeScreen.tsx`: the `create` initializer). -/
def initialState : TaskStoreState :=
  { currentPomodoro :=
      { active := false
        isBreak := false
        timeRemaining := 25 * 60
        sessionId := none
        currentSessionCount := 0 }
    pomodoroSettings :=
      { workDuration := 25
        shortBreakDuration := 5
        longBreakDuration := 15
        sessionsUntilLongBreak := 4
        autoStartNextSession := false
        autoStartBreaks := true } }

/-- `startPomodoro` (`HomeScreen.tsx`): unconditionally activates a work
session bound to `taskId`, resetting the countdown to the work duration.
`currentSessionCount` is spread from the previous state. -/
def startPomodoro (taskId : String) (s : TaskStoreState) : TaskStoreState :=
  { s with currentPomodoro :=
      { s.currentPomodoro with
          active := true
          isBreak := false
          sessionId := some taskId
          timeRemaining := (s.pomodoroSettings.workDuration : Int) * 60 } }

/-- `pausePomodoro` (`HomeScreen.tsx`): clears only the `active` flag. -/
def pausePomodoro (s : TaskStoreState) : TaskStoreState :=
  { s with currentPomodoro := { s.currentPomodoro with active := false } }

/-- `resumePomodoro` (`HomeScreen.tsx`): sets only the `active` flag. -/
def resumePomodoro (s : TaskStoreState) : TaskStoreState :=
  { s with currentPomodoro := { s.currentPomodoro with active := true } }

/-- `stopPomodoro` (`HomeScreen.tsx`): replaces the whole `currentPomodoro`
slice with its initial shape (countdown reset to the current work duration).
The `logTime` and `reason` parameters appear in the source signature but are
not used in the body. -/
def stopPomodoro (logTime : Bool) (reason : String) (s : TaskStoreState) :
    TaskStoreState :=
  { s with currentPomodoro :=
      { active := false
        isBreak := false
        timeRemaining := (s.pomodoroSettings.workDuration : Int) * 60
        sessionId := none
        currentSessionCount := 0 } }

/-- `completePomodoro` (`HomeScreen.tsx`): enters a running break.  A long
break is chosen when `currentSessionCount >= sessionsUntilLongBreak - 1`
(JavaScript `>=` on numbers; for the session counts the store produces,
which stay below `sessionsUntilLongBreak`, this coincides with equality);
the counter is incremented modulo `sessionsUntilLongBreak`. -/
def completePomodoro (s : TaskStoreState) : TaskStoreState :=
  { s with currentPomodoro :=
      { s.currentPomodoro with
          isBreak := true
          active := true
          timeRemaining :=
            if s.currentPomodoro.currentSessionCount ≥
                s.pomodoroSettings.sessionsUntilLongBreak - 1 then
              (s.pomodoroSettings.longBreakDuration : Int) * 60
            else
              (s.pomodoroSettings.shortBreakDuration : Int) * 60
          currentSessionCount :=
            (s.currentPomodoro.currentSessionCount + 1) %
              s.pomodoroSettings.sessionsUntilLongBreak } }

/-- `skipBreak` (`HomeScreen.tsx`): leaves the break without starting work. -/
def skipBreak (s : TaskStoreState) : TaskStoreState :=
  { s with currentPomodoro :=
      { s.currentPomodoro with
          isBreak := false
          active := false
          timeRemaining := (s.pomodoroSettings.workDuration : Int) * 60 } }

/-- `updatePomodoroSettings` (`HomeScreen.tsx`): stores the settings object
as given, with no validation of its own. -/
def updatePomodoroSettings (settings : PomodoroSettings)
    (s : TaskStoreState) : TaskStoreState :=
  { s with pomodoroSettings := settings }

/-- JavaScript truthiness of the component's `selectedTaskId : string | null`
(`null` and the empty string are falsy). -/
def truthyId : Option String → Bool
  | none => false
  | some t => t ≠ ""

/-- `handleSessionComplete` (`PomodoroTimer.tsx`): aside from vibration it
only calls `completePomodoro`. -/
def handleSessionComplete (s : TaskStoreState) : TaskStoreState :=
  completePomodoro s

/-- `handleBreakComplete` (`PomodoroTimer.tsx`): resets via
`stopPomodoro(false, '')`, then auto-starts the next work session when
`autoStartNextSession` is set and a task is selected. -/
def handleBreakComplete (selectedTaskId : Option String)
    (s : TaskStoreState) : TaskStoreState :=
  let s1 := stopPomodoro false "" s
  if s.pomodoroSettings.autoStartNextSession ∧ truthyId selectedTaskId then
    match selectedTaskId with
    | some tid => startPomodoro tid s1
    | none => s1
  else s1

/-- One firing of the interval callback in `PomodoroTimer.tsx` (lines
67-101).  The interval only exists while `isActive`; at
`timeRemaining <= 1` the phase-completion handler runs instead of a
decrement. -/
def tick (selectedTaskId : Option String) (s : TaskStoreState) :
    TaskStoreState :=
  if s.currentPomodoro.active then
    if s.currentPomodoro.timeRemaining ≤ 1 then
      if s.currentPomodoro.isBreak then
        handleBreakComplete selectedTaskId s
      else
        handleSessionComplete s
    else
      { s with currentPomodoro :=
          { s.currentPomodoro with
              timeRemaining := s.currentPomodoro.timeRemaining - 1 } }
  else s

/-- `parseInt(x, 10) || d` from `handleSave` in `TemplateList.tsx`: a failed
parse (`NaN`, modelled as `none`) and a parsed `0` are both falsy and fall
back to the default. -/
def parseOrDefault (v : Option Nat) (d : Nat) : Nat :=
  match v with
  | none => d
  | some n => if n = 0 then d else n

/-- `Math.max(lo, Math.min(hi, x))`. -/
def clampTo (lo hi x : Nat) : Nat :=
  max lo (min hi x)

/-- `handleSave` (`TemplateList.tsx` lines 411-429): parses the four numeric
fields with defaults 25/5/15/4, clamps them to [1,120], [1,30], [5,60] and
[1,10] respectively, and passes the two switches through unchanged. -/
def handleSave (workDuration shortBreakDuration longBreakDuration
    sessionsUntilLongBreak : Option Nat)
    (autoStartBreaks autoStartNextSession : Bool) : PomodoroSettings :=
  { workDuration := clampTo 1 120 (parseOrDefault workDuration 25)
    shortBreakDuration := clampTo 1 30 (parseOrDefault shortBreakDuration 5)
    longBreakDuration := clampTo 5 60 (parseOrDefault longBreakDuration 15)
    sessionsUntilLongBreak :=
      clampTo 1 10 (parseOrDefault sessionsUntilLongBreak 4)
    autoStartBreaks := autoStartBreaks
    autoStartNextSession := autoStartNextSession }

/-! ## User profile cache (`src/services/userService.ts`) -/

/-- The fields of `UserProfile` (`src/types/user.ts`) that identify a
profile; `getUserProfile` never inspects the payload, it only stores and
returns whole profile objects, so the remaining settings blob is carried
opaquely by these. -/
structure UserProfile where
  uid : String
  email : String
  displayName : Option String
  isAnonymous : Bool
deriving Repr, DecidableEq

/-- `CACHE_DURATION = 30 * 60 * 1000` (milliseconds). -/
def CACHE_DURATION : Nat := 30 * 60 * 1000

/-- The module-level `memoryCache` and `cacheExpiry` maps. -/
structure CacheState where
  memoryCache : String → Option UserProfile
  cacheExpiry : String → Option Nat

/-- Outcome of the `Promise.race([getDoc(userRef), timeout])` step:
the document exists, the document does not exist, the 5-second timeout
resolves first, or `getDoc` throws. -/
inductive RemoteFetch where
  | found : UserProfile → RemoteFetch
  | notFound : RemoteFetch
  | timeout : RemoteFetch
  | failure : RemoteFetch
deriving Repr, DecidableEq

/-- `isCacheValid` (`userService.ts`): an absent (or falsy) expiry means
invalid; otherwise valid while `Date.now() < expiry`. -/
def isCacheValid (uid : String) (c : CacheState) (now : Nat) : Bool :=
  match c.cacheExpiry uid with
  | some expiry => now < expiry
  | none => false

/-- Result of `getUserProfile`: the returned value, the cache maps after the
call, and whether the remote fetch was performed. -/
structure GetProfileResult where
  result : Option UserProfile
  cache : CacheState
  didFetch : Bool

/-- `getUserProfile` (`userService.ts` lines 72-121) as a pure function of
the cache state, the current time and the remote outcome:
a falsy `uid` returns `null` at once; a present and non-expired cache entry
is returned without fetching; otherwise the fetch runs, a found document is
returned and cached with a fresh expiry, and on a missing document, timeout
or thrown error the (possibly expired, possibly absent) cached value is
returned. -/
def getUserProfile (uid : String) (c : CacheState) (now : Nat)
    (remote : RemoteFetch) : GetProfileResult :=
  if uid = "" then
    { result := none, cache := c, didFetch := false }
  else
    let cachedProfile := c.memoryCache uid
    if cachedProfile.isSome ∧ isCacheValid uid c now then
      { result := cachedProfile, cache := c, didFetch := false }
    else
      match remote with
      | .found p =>
          { result := some p
            cache :=
              { memoryCache := Function.update c.memoryCache uid (some p)
                cacheExpiry :=
                  Function.update c.cacheExpiry uid
                    (some (now + CACHE_DURATION)) }
            didFetch := true }
      | .notFound => { result := cachedProfile, cache := c, didFetch := true }
      | .timeout => { result := cachedProfile, cache := c, didFetch := true }
      | .failure => { result := cachedProfile, cache := c, didFetch := true }

/-! ## Example states used by witnesses and counterexamples -/

/-- A running work session bound to task `t1` with 300 s left and two
completed sessions this cycle, under the default settings. -/
def activeSession : TaskStoreState :=
  { currentPomodoro :=
      { active := true
        isBreak := false
        timeRemaining := 300
        sessionId := some "t1"
        currentSessionCount := 2 }
    pomodoroSettings := initialState.pomodoroSettings }

/-- A running work session that is about to be the 4th of the cycle
(pre-increment counter 3, `sessionsUntilLongBreak = 4`). -/
def fourthSession : TaskStoreState :=
  { currentPomodoro :=
      { active := true
        isBreak := false
        timeRemaining := 0
        sessionId := some "t1"
        currentSessionCount := 3 }
    pomodoroSettings := initialState.pomodoroSettings }

/-- A running work session at the last second of its countdown, with
`autoStartBreaks` switched off. -/
def lastSecondNoAutoBreaks : TaskStoreState :=
  { currentPomodoro :=
      { active := true
        isBreak := false
        timeRemaining := 1
        sessionId := some "t1"
        currentSessionCount := 0 }
    pomodoroSettings :=
      { workDuration := 25
        shortBreakDuration := 5
        longBreakDuration := 15
        sessionsUntilLongBreak := 4
        autoStartNextSession := false
        autoStartBreaks := false } }

/-- A running work session with 600 s elapsed (900 s remaining) under the
default settings. -/
def workingAfter600s : TaskStoreState :=
  { currentPomodoro :=
      { active := true
        isBreak := false
        timeRemaining := 900
        sessionId := some "t1"
        currentSessionCount := 1 }
    pomodoroSettings := initialState.pomodoroSettings }

/-- A running work session at the last second of its countdown, default
settings. -/
def lastSecondWorking : TaskStoreState :=
  { currentPomodoro :=
      { active := true
        isBreak := false
        timeRemaining := 1
        sessionId := some "t2"
        currentSessionCount := 0 }
    pomodoroSettings := initialState.pomodoroSettings }

/-! ## Claims -/

/-- C1: completing a work phase increments the completed-session counter
modulo `sessionsUntilLongBreak`; the break entered is running
(`isBreak = true`, `active = true`) and its length is
`longBreakDuration * 60` exactly when the pre-increment counter is
`sessionsUntilLongBreak - 1`, and `shortBreakDuration * 60` otherwise —
for settings with `sessionsUntilLongBreak ∈ [1,10]` and a counter in its
documented range `[0, sessionsUntilLongBreak)`. -/
theorem completePomodoro_break_selection (s : TaskStoreState)
    (hN1 : 1 ≤ s.pomodoroSettings.sessionsUntilLongBreak)
    (hN10 : s.pomodoroSettings.sessionsUntilLongBreak ≤ 10)
    (hc : s.currentPomodoro.currentSessionCount <
      s.pomodoroSettings.sessionsUntilLongBreak) :
    (completePomodoro s).currentPomodoro.isBreak = true ∧
    (completePomodoro s).currentPomodoro.active = true ∧
    (completePomodoro s).currentPomodoro.currentSessionCount =
      (s.currentPomodoro.currentSessionCount + 1) %
        s.pomodoroSettings.sessionsUntilLongBreak ∧
    (completePomodoro s).currentPomodoro.timeRemaining =
      (if s.currentPomodoro.currentSessionCount =
          s.pomodoroSettings.sessionsUntilLongBreak - 1 then
        (s.pomodoroSettings.longBreakDuration : Int) * 60
      else
        (s.pomodoroSettings.shortBreakDuration : Int) * 60) := by
  refine ⟨rfl, rfl, rfl, ?_⟩
  by_cases h : s.currentPomodoro.currentSessionCount =
      s.pomodoroSettings.sessionsUntilLongBreak - 1
  · have hge : s.currentPomodoro.currentSessionCount ≥
        s.pomodoroSettings.sessionsUntilLongBreak - 1 := by omega
    simp [completePomodoro, h, hge]
  · have hlt : ¬ (s.currentPomodoro.currentSessionCount ≥
        s.pomodoroSettings.sessionsUntilLongBreak - 1) := by omega
    simp [completePomodoro, h, hlt]

/-- C1 witness: the theorem applied to the 4th work session of a 4-session
cycle under the default settings. -/
theorem completePomodoro_break_selection_witness :
    (completePomodoro fourthSession).currentPomodoro.isBreak = true ∧
    (completePomodoro fourthSession).currentPomodoro.active = true ∧
    (completePomodoro fourthSession).currentPomodoro.currentSessionCount =
      (fourthSession.currentPomodoro.currentSessionCount + 1) %
        fourthSession.pomodoroSettings.sessionsUntilLongBreak ∧
    (completePomodoro fourthSession).currentPomodoro.timeRemaining =
      (if fourthSession.currentPomodoro.currentSessionCount =
          fourthSession.pomodoroSettings.sessionsUntilLongBreak - 1 then
        (fourthSession.pomodoroSettings.longBreakDuration : Int) * 60
      else
        (fourthSession.pomodoroSettings.shortBreakDuration : Int) * 60) :=
  completePomodoro_break_selection fourthSession (by decide) (by decide)
    (by decide)

/-- C2 counterexample: with a session already active for task `t1`, calling
`startPomodoro "t2"` is not a no-op (and the embedding has no error channel):
it silently rebinds the session to `t2` and resets the countdown to
`workDuration * 60 = 1500`, contradicting the claim that this is a no-op or
a reported error. -/
theorem startPomodoro_not_guarded :
    startPomodoro "t2" activeSession ≠ activeSession ∧
    (startPomodoro "t2" activeSession).currentPomodoro.sessionId =
      some "t2" ∧
    (startPomodoro "t2" activeSession).currentPomodoro.timeRemaining =
      25 * 60 := by
  refine ⟨?_, rfl, rfl⟩
  decide

/-- C2 (amended): `startPomodoro t2` while a session is active for a
different task `t1` performs no guard at all: it silently rebinds the
session to `t2`, forces the work phase, and resets the countdown to
`workDuration * 60`, preserving only the cycle counter. -/
theorem startPomodoro_rebinds (s : TaskStoreState) (t1 t2 : String)
    (hact : s.currentPomodoro.active = true)
    (hbound : s.currentPomodoro.sessionId = some t1)
    (hne : t2 ≠ t1) :
    startPomodoro t2 s =
      { s with currentPomodoro :=
          { active := true
            isBreak := false
            timeRemaining := (s.pomodoroSettings.workDuration : Int) * 60
            sessionId := some t2
            currentSessionCount :=
              s.currentPomodoro.currentSessionCount } } := rfl

/-- C2 witness: the amended theorem applied to the running session bound to
`t1`, restarted for `t2`. -/
theorem startPomodoro_rebinds_witness :
    startPomodoro "t2" activeSession =
      { activeSession with currentPomodoro :=
          { active := true
            isBreak := false
            timeRemaining :=
              (activeSession.pomodoroSettings.workDuration : Int) * 60
            sessionId := some "t2"
            currentSessionCount :=
              activeSession.currentPomodoro.currentSessionCount } } :=
  startPomodoro_rebinds activeSession "t1" "t2" rfl rfl (by decide)

/-- C3: under settings with `autoStartBreaks = false`, the tick that
completes a work phase still enters a running break: the resulting state
has `active = true` and `isBreak = true` with the break countdown already
started, rather than an idle awaiting-confirmation state. -/
theorem autoStartBreaks_ignored :
    lastSecondNoAutoBreaks.pomodoroSettings.autoStartBreaks = false ∧
    (tick (some "t1") lastSecondNoAutoBreaks).currentPomodoro.active =
      true ∧
    (tick (some "t1") lastSecondNoAutoBreaks).currentPomodoro.isBreak =
      true ∧
    (tick (some "t1") lastSecondNoAutoBreaks).currentPomodoro.timeRemaining =
      5 * 60 := by
  refine ⟨rfl, ?_, ?_, ?_⟩ <;> decide

/-- C4 counterexample: stopping the 600-second-old work session with
`logInterruption = true` and note `"interrupted"` produces a state identical
to stopping with `logInterruption = false` and an empty note, and identical
to a bare reset of the Pomodoro slice — the note is discarded and no
interruption record exists anywhere in the resulting store state. -/
theorem stopPomodoro_drops_note :
    stopPomodoro true "interrupted" workingAfter600s =
      stopPomodoro false "" workingAfter600s ∧
    stopPomodoro true "interrupted" workingAfter600s =
      { workingAfter600s with currentPomodoro :=
          { active := false
            isBreak := false
            timeRemaining := 1500
            sessionId := none
            currentSessionCount := 0 } } :=
  ⟨rfl, rfl⟩

/-- C4 (amended): from any non-Idle session state, `stopPomodoro true note`
resets the session to Idle (`active = false`, `isBreak = false`,
`timeRemaining = workDuration * 60`, `sessionId = none`, counter 0); the
`logInterruption` flag and the note are ignored — the result is identical
to `stopPomodoro false ""` — and no interruption record is produced. -/
theorem stopPomodoro_resets_ignoring_args (s : TaskStoreState)
    (note : String)
    (hnonidle : s.currentPomodoro.active = true ∨
      s.currentPomodoro.isBreak = true) :
    stopPomodoro true note s = stopPomodoro false "" s ∧
    (stopPomodoro true note s).currentPomodoro.active = false ∧
    (stopPomodoro true note s).currentPomodoro.isBreak = false ∧
    (stopPomodoro true note s).currentPomodoro.timeRemaining =
      (s.pomodoroSettings.workDuration : Int) * 60 ∧
    (stopPomodoro true note s).currentPomodoro.sessionId = none ∧
    (stopPomodoro true note s).currentPomodoro.currentSessionCount = 0 :=
  ⟨rfl, rfl, rfl, rfl, rfl, rfl⟩

/-- C4 witness: the amended theorem applied to the running work session
with 600 s elapsed and note `"interrupted"`. -/
theorem stopPomodoro_resets_ignoring_args_witness :
    stopPomodoro true "interrupted" workingAfter600s =
      stopPomodoro false "" workingAfter600s ∧
    (stopPomodoro true "interrupted" workingAfter600s).currentPomodoro.active =
      false ∧
    (stopPomodoro true "interrupted" workingAfter600s).currentPomodoro.isBreak =
      false ∧
    (stopPomodoro true "interrupted"
        workingAfter600s).currentPomodoro.timeRemaining =
      (workingAfter600s.pomodoroSettings.workDuration : Int) * 60 ∧
    (stopPomodoro true "interrupted"
        workingAfter600s).currentPomodoro.sessionId = none ∧
    (stopPomodoro true "interrupted"
        workingAfter600s).currentPomodoro.currentSessionCount = 0 :=
  stopPomodoro_resets_ignoring_args workingAfter600s "interrupted"
    (Or.inl rfl)

/-- C7: pausing and then resuming an actively running session restores the
store state exactly: phase flags and `timeRemaining` are unchanged. -/
theorem pause_resume_roundtrip (s : TaskStoreState)
    (h : s.currentPomodoro.active = true) :
    resumePomodoro (pausePomodoro s) = s := by
  cases s with
  | mk cp ps =>
    cases cp with
    | mk a b tr sid cnt =>
      simp only [pausePomodoro, resumePomodoro]
      simp only at h
      subst h
      rfl

/-- C7 witness: pause then resume on the running session bound to `t1`. -/
theorem pause_resume_roundtrip_witness :
    resumePomodoro (pausePomodoro activeSession) = activeSession :=
  pause_resume_roundtrip activeSession rfl

/-- C9: `stopPomodoro` with any arguments resets the whole Pomodoro slice
to its initial shape (counter 0, no session, not a break, inactive,
countdown at the current `workDuration * 60`), and the arguments have no
effect on the result. -/
theorem stopPomodoro_full_reset (logTime : Bool) (reason : String)
    (s : TaskStoreState) :
    stopPomodoro logTime reason s =
      { s with currentPomodoro :=
          { active := false
            isBreak := false
            timeRemaining := (s.pomodoroSettings.workDuration : Int) * 60
            sessionId := none
            currentSessionCount := 0 } } ∧
    (∀ (logTime' : Bool) (reason' : String),
      stopPomodoro logTime reason s = stopPomodoro logTime' reason' s) :=
  ⟨rfl, fun _ _ => rfl⟩

/-- The countdown value after `handleBreakComplete` is always the full work
duration: the embedded `stopPomodoro` sets it, and the optional auto-started
next session sets it to the same value. -/
theorem handleBreakComplete_timeRemaining (sel : Option String)
    (s : TaskStoreState) :
    (handleBreakComplete sel s).currentPomodoro.timeRemaining =
      (s.pomodoroSettings.workDuration : Int) * 60 := by
  cases sel with
  | none => simp [handleBreakComplete, stopPomodoro, truthyId]
  | some tid =>
    by_cases h : (s.pomodoroSettings.autoStartNextSession : Prop) ∧
        (truthyId (some tid) : Prop)
    · simp [handleBreakComplete, h, startPomodoro, stopPomodoro]
    · simp [handleBreakComplete, h, stopPomodoro]

/-- C6: under settings whose durations are at least one minute, a tick never
drives `timeRemaining` negative; and a tick arriving at
`timeRemaining = 1` performs the phase transition in that same step,
leaving the next phase's full (positive) duration on the clock — the break
duration chosen by `completePomodoro` after a work phase, and
`workDuration * 60` after a break. -/
theorem tick_nonneg_and_boundary (sel : Option String) (s : TaskStoreState)
    (hw : 1 ≤ s.pomodoroSettings.workDuration)
    (hs : 1 ≤ s.pomodoroSettings.shortBreakDuration)
    (hl : 1 ≤ s.pomodoroSettings.longBreakDuration)
    (h0 : 0 ≤ s.currentPomodoro.timeRemaining) :
    0 ≤ (tick sel s).currentPomodoro.timeRemaining ∧
    (s.currentPomodoro.active = true → s.currentPomodoro.isBreak = false →
      s.currentPomodoro.timeRemaining = 1 →
      tick sel s = completePomodoro s ∧
      (tick sel s).currentPomodoro.timeRemaining =
        (if s.currentPomodoro.currentSessionCount ≥
            s.pomodoroSettings.sessionsUntilLongBreak - 1 then
          (s.pomodoroSettings.longBreakDuration : Int) * 60
        else
          (s.pomodoroSettings.shortBreakDuration : Int) * 60) ∧
      0 < (tick sel s).currentPomodoro.timeRemaining) ∧
    (s.currentPomodoro.active = true → s.currentPomodoro.isBreak = true →
      s.currentPomodoro.timeRemaining = 1 →
      tick sel s = handleBreakComplete sel s ∧
      (tick sel s).currentPomodoro.timeRemaining =
        (s.pomodoroSettings.workDuration : Int) * 60 ∧
      0 < (tick sel s).currentPomodoro.timeRemaining) := by
  refine ⟨?_, ?_, ?_⟩
  · unfold tick
    split_ifs with hact htime hbrk
    · rw [handleBreakComplete_timeRemaining]
      omega
    · unfold handleSessionComplete completePomodoro
      simp only
      split_ifs <;> omega
    · simp only
      omega
    · exact h0
  · intro hact hbrk htime
    have h1 : tick sel s = completePomodoro s := by
      unfold tick
      rw [if_pos hact, if_pos (by rw [htime]), if_neg (by simp [hbrk])]
      rfl
    refine ⟨h1, ?_, ?_⟩
    · rw [h1]
      rfl
    · rw [h1]
      unfold completePomodoro
      simp only
      split_ifs <;> omega
  · intro hact hbrk htime
    have h1 : tick sel s = handleBreakComplete sel s := by
      unfold tick
      rw [if_pos hact, if_pos (by rw [htime]), if_pos (by simp [hbrk])]
    refine ⟨h1, ?_, ?_⟩
    · rw [h1, handleBreakComplete_timeRemaining]
    · rw [h1, handleBreakComplete_timeRemaining]
      omega

/-- C6 witness: the theorem applied to the running work session at the last
second of its countdown under the default settings. -/
theorem tick_nonneg_and_boundary_witness :
    0 ≤ (tick none lastSecondWorking).currentPomodoro.timeRemaining ∧
    (lastSecondWorking.currentPomodoro.active = true →
      lastSecondWorking.currentPomodoro.isBreak = false →
      lastSecondWorking.currentPomodoro.timeRemaining = 1 →
      tick none lastSecondWorking = completePomodoro lastSecondWorking ∧
      (tick none lastSecondWorking).currentPomodoro.timeRemaining =
        (if lastSecondWorking.currentPomodoro.currentSessionCount ≥
            lastSecondWorking.pomodoroSettings.sessionsUntilLongBreak - 1 then
          (lastSecondWorking.pomodoroSettings.longBreakDuration : Int) * 60
        else
          (lastSecondWorking.pomodoroSettings.shortBreakDuration : Int) *
            60) ∧
      0 < (tick none lastSecondWorking).currentPomodoro.timeRemaining) ∧
    (lastSecondWorking.currentPomodoro.active = true →
      lastSecondWorking.currentPomodoro.isBreak = true →
      lastSecondWorking.currentPomodoro.timeRemaining = 1 →
      tick none lastSecondWorking =
        handleBreakComplete none lastSecondWorking ∧
      (tick none lastSecondWorking).currentPomodoro.timeRemaining =
        (lastSecondWorking.pomodoroSettings.workDuration : Int) * 60 ∧
      0 < (tick none lastSecondWorking).currentPomodoro.timeRemaining) :=
  tick_nonneg_and_boundary none lastSecondWorking (by decide) (by decide)
    (by decide) (by decide)

/-- C8: the settings saved through the dialog always lie within the
documented bounds — `workDuration ∈ [1,120]`,
`shortBreakDuration ∈ [1,30]`, `longBreakDuration ∈ [5,60]`,
`sessionsUntilLongBreak ∈ [1,10]` — whatever the inputs, because
`handleSave` clamps rather than rejects; in particular a work duration of
200 is stored as 120. -/
theorem handleSave_clamps (w sb lb n : Option Nat)
    (asb asn : Bool) (st : TaskStoreState) :
    (1 ≤ (updatePomodoroSettings (handleSave w sb lb n asb asn)
        st).pomodoroSettings.workDuration ∧
      (updatePomodoroSettings (handleSave w sb lb n asb asn)
        st).pomodoroSettings.workDuration ≤ 120) ∧
    (1 ≤ (updatePomodoroSettings (handleSave w sb lb n asb asn)
        st).pomodoroSettings.shortBreakDuration ∧
      (updatePomodoroSettings (handleSave w sb lb n asb asn)
        st).pomodoroSettings.shortBreakDuration ≤ 30) ∧
    (5 ≤ (updatePomodoroSettings (handleSave w sb lb n asb asn)
        st).pomodoroSettings.longBreakDuration ∧
      (updatePomodoroSettings (handleSave w sb lb n asb asn)
        st).pomodoroSettings.longBreakDuration ≤ 60) ∧
    (1 ≤ (updatePomodoroSettings (handleSave w sb lb n asb asn)
        st).pomodoroSettings.sessionsUntilLongBreak ∧
      (updatePomodoroSettings (handleSave w sb lb n asb asn)
        st).pomodoroSettings.sessionsUntilLongBreak ≤ 10) ∧
    (updatePomodoroSettings (handleSave (some 200) sb lb n asb asn)
        st).pomodoroSettings.workDuration = 120 := by
  have h200 : parseOrDefault (some 200) 25 = 200 := rfl
  refine ⟨⟨?_, ?_⟩, ⟨?_, ?_⟩, ⟨?_, ?_⟩, ⟨?_, ?_⟩, ?_⟩ <;>
    simp only [updatePomodoroSettings, handleSave, clampTo, h200] <;>
    omega

/-- A concrete profile for the cache witnesses. -/
def exProfile : UserProfile :=
  { uid := "u1"
    email := "u1@example.com"
    displayName := some "User One"
    isAnonymous := false }

/-- A cache holding `exProfile` for uid `u1` with expiry timestamp 100. -/
def exCache : CacheState :=
  { memoryCache := fun uid => if uid = "u1" then some exProfile else none
    cacheExpiry := fun uid => if uid = "u1" then some 100 else none }

/-- C5: for a non-empty uid, `getUserProfile` (a) returns a present,
non-expired cache entry without performing the remote fetch; (b) on a
remote timeout or failure returns whatever the cache holds, even an expired
entry; and (c) returns `null` only when the cache holds nothing for the uid
and the remote did not produce a document (missing, timed out, or
failed). -/
theorem getUserProfile_cache_policy (uid : String) (c : CacheState)
    (now : Nat) (remote : RemoteFetch) (h : uid ≠ "") :
    ((c.memoryCache uid).isSome = true → isCacheValid uid c now = true →
      (getUserProfile uid c now remote).result = c.memoryCache uid ∧
      (getUserProfile uid c now remote).didFetch = false) ∧
    ((remote = RemoteFetch.timeout ∨ remote = RemoteFetch.failure) →
      (getUserProfile uid c now remote).result = c.memoryCache uid) ∧
    ((getUserProfile uid c now remote).result = none →
      c.memoryCache uid = none ∧
      (remote = RemoteFetch.notFound ∨ remote = RemoteFetch.timeout ∨
        remote = RemoteFetch.failure)) := by
  simp only [getUserProfile, if_neg h]
  split_ifs with hhit
  · refine ⟨fun _ _ => ⟨rfl, rfl⟩, fun _ => rfl, fun hnone => ?_⟩
    have h2 : c.memoryCache uid = none := hnone
    rw [h2] at hhit
    simp at hhit
  · cases remote with
    | found p =>
        refine ⟨fun hs hv => absurd ⟨hs, hv⟩ hhit, ?_, fun hnone => ?_⟩
        · rintro (h2 | h2) <;> exact RemoteFetch.noConfusion h2
        · exact Option.noConfusion hnone
    | notFound =>
        exact ⟨fun hs hv => absurd ⟨hs, hv⟩ hhit, fun _ => rfl,
          fun hnone => ⟨hnone, Or.inl rfl⟩⟩
    | timeout =>
        exact ⟨fun hs hv => absurd ⟨hs, hv⟩ hhit, fun _ => rfl,
          fun hnone => ⟨hnone, Or.inr (Or.inl rfl)⟩⟩
    | failure =>
        exact ⟨fun hs hv => absurd ⟨hs, hv⟩ hhit, fun _ => rfl,
          fun hnone => ⟨hnone, Or.inr (Or.inr rfl)⟩⟩

/-- C5 witness: the theorem applied to uid `u1` whose cache entry expired at
time 100, queried at time 200 while the remote fetch fails: the expired
entry is still returned. -/
theorem getUserProfile_cache_policy_witness :
    ((exCache.memoryCache "u1").isSome = true →
      isCacheValid "u1" exCache 200 = true →
      (getUserProfile "u1" exCache 200 RemoteFetch.failure).result =
        exCache.memoryCache "u1" ∧
      (getUserProfile "u1" exCache 200 RemoteFetch.failure).didFetch =
        false) ∧
    ((RemoteFetch.failure = RemoteFetch.timeout ∨
        RemoteFetch.failure = RemoteFetch.failure) →
      (getUserProfile "u1" exCache 200 RemoteFetch.failure).result =
        exCache.memoryCache "u1") ∧
    ((getUserProfile "u1" exCache 200 RemoteFetch.failure).result = none →
      exCache.memoryCache "u1" = none ∧
      (RemoteFetch.failure = RemoteFetch.notFound ∨
        RemoteFetch.failure = RemoteFetch.timeout ∨
        RemoteFetch.failure = RemoteFetch.failure)) :=
  getUserProfile_cache_policy "u1" exCache 200 RemoteFetch.failure
    (by decide)

/-- C10: with a falsy uid (the empty string), `getUserProfile` returns
`null` immediately: no remote fetch is performed and the cache maps are
returned untouched, whatever the cache, the clock and the remote would have
been. -/
theorem getUserProfile_empty_uid (c : CacheState) (now : Nat)
    (remote : RemoteFetch) :
    getUserProfile "" c now remote =
      { result := none, cache := c, didFetch := false } := rfl

end TaskManager
